import Mathlib

/-!
Verification development for the news-rss pipeline.

This file gives a shallow embedding of the parts of the repository that the
checked properties talk about:

* `utils.filter_by_keywords` (utils.py, lines 97-136): the keyword relevance
  filter -- frequency-weighted scoring, exclusion keywords, minimum threshold,
  descending sort by score;
* `generate_github_pages.group_news_by_keywords` / `generate_html`
  (generate_github_pages.py): keyword grouping and the static HTML renderer;
* `collect_rss.process_rss_source` / `collect_rss.collect_rss_feeds`
  (collect_rss.py): the per-source health tracker, the entry date filter and
  the aggregation step that writes health state back to the shared map.

Python floats are modelled with `ℚ`; machine strings with `String` (ASCII
case folding); `datetime` instants and UTC calendar days with `Int`;
dictionaries with optional keys with `Option` fields; the shared
health-status dict with an insertion-ordered association list.  External
effects (the network probe, the feed fetch) are inputs to the model.
-/

namespace NewsRss

/-! ## Python string primitives -/

/-- Whitespace for Python `str.split()` with no argument (ASCII range). -/
def isPySpace (c : Char) : Bool :=
  c = ' ' || c = '\t' || c = '\n' || c = '\r' || c = '\x0b' || c = '\x0c'

/-- Worker for `pySplitLen`: count maximal non-space runs; `inWord` records
whether the previous character was inside a word. -/
def wordCountAux (inWord : Bool) : List Char → Nat
  | [] => 0
  | c :: rest =>
    if isPySpace c then wordCountAux false rest
    else (if inWord then 0 else 1) + wordCountAux true rest

/-- Python `len(s.split())`: number of maximal non-space runs. -/
def pySplitLen (s : String) : Nat :=
  wordCountAux false s.toList

/-- Python `str.lower()` (ASCII letters; the inputs of interest are ASCII
keywords and feed text). -/
def pyLower (s : String) : String :=
  String.mk (s.toList.map Char.toLower)

/-- Worker for `pyCount`, structural in a fuel argument so that concrete
evaluations reduce in the kernel.  Counts non-overlapping occurrences of
`needle` scanning left to right, exactly as Python `str.count` does for a
non-empty needle.  `fuel` is always instantiated with the haystack length,
which suffices because each step consumes at least one character. -/
def pyCountFuel (needle : List Char) : Nat → List Char → Nat
  | _, [] => 0
  | 0, _ => 0
  | fuel + 1, c :: rest =>
    if needle.isPrefixOf (c :: rest) then
      1 + pyCountFuel needle fuel (List.drop (needle.length - 1) rest)
    else
      pyCountFuel needle fuel rest

/-- Python `hay.count(needle)`: non-overlapping occurrences; an empty needle
counts `len(hay) + 1` (one match at every gap, Python semantics). -/
def pyCount (hay needle : String) : Nat :=
  if needle.toList = [] then hay.toList.length + 1
  else pyCountFuel needle.toList hay.toList.length hay.toList

/-- Worker for `pySubstr`: does `needle` occur as a contiguous block? -/
def substrAux (needle : List Char) : List Char → Bool
  | [] => needle.isEmpty
  | c :: rest => needle.isPrefixOf (c :: rest) || substrAux needle rest

/-- Python `needle in hay` for strings: substring containment (the empty
string is contained in everything). -/
def pySubstr (needle hay : String) : Bool :=
  substrAux needle.toList hay.toList

/-! ## utils.clean_html and generate_github_pages helpers -/

/-- Scan for the closing `>` of the regex `<.*?>` in `clean_html`: `.` does
not match a newline, so the lazy match fails if a newline comes first.
Returns the remainder after the first `>` when one exists on the same line. -/
def findTagClose : List Char → Option (List Char)
  | [] => none
  | '>' :: rest => some rest
  | '\n' :: _ => none
  | _ :: rest => findTagClose rest

/-- Worker for `clean_html`; `fuel` is instantiated with the input length,
which suffices because each step consumes at least one character. -/
def cleanHtmlFuel : Nat → List Char → List Char
  | 0, l => l
  | _ + 1, [] => []
  | fuel + 1, c :: rest =>
    if c = '<' then
      match findTagClose rest with
      | some rest' => cleanHtmlFuel fuel rest'
      | none => c :: cleanHtmlFuel fuel rest
    else
      c :: cleanHtmlFuel fuel rest

/-- `clean_html` (utils.py lines 156-168 and generate_github_pages.py lines
104-110): delete every non-overlapping match of the regex `<.*?>`. -/
def clean_html (text : String) : String :=
  if text = "" then ""
  else String.mk (cleanHtmlFuel text.toList.length text.toList)

/-- `truncate_text` (generate_github_pages.py lines 97-101). -/
def truncate_text (text : String) (max_length : Nat) : String :=
  if text.length ≤ max_length then text
  else text.take max_length ++ "..."

/-! ## Data model -/

/-- A news item as built by `process_rss_source` (collect_rss.py lines
175-191) and annotated by `filter_by_keywords`.  `match_score` is `none`
until the filter sets it (Python: a missing dict key). -/
structure NewsItem where
  title : String
  link : String
  description : String
  content : String
  published : String
  source : String
  category : String
  collected_at : String
  match_score : Option ℚ
deriving DecidableEq, Repr

/-! ## Stable descending sort

Python `list.sort(key=..., reverse=True)` is a stable sort read in
descending key order.  A stable insertion sort computes the same list: each
element is inserted after every earlier element of greater-or-equal key. -/

/-- Insert `x` into a descending-sorted list, after all entries whose key is
greater than or equal to `key x` (stability). -/
def insertDescBy {α β : Type} [LinearOrder β] (key : α → β) (x : α) :
    List α → List α
  | [] => [x]
  | y :: ys => if key x ≤ key y then y :: insertDescBy key x ys else x :: y :: ys

/-- Stable sort by descending key, as `list.sort(key=key, reverse=True)`. -/
def sortDescBy {α β : Type} [LinearOrder β] (key : α → β) (l : List α) : List α :=
  l.foldl (fun acc x => insertDescBy key x acc) []

/-! ## utils.filter_by_keywords -/

/-- One weighted field score of `filter_by_keywords` (utils.py lines
118-120): `w * sum(field.count(k.lower()) for k in keywords) /
max(1, len(field.split()))`, on the already lowercased field text. -/
def fieldScore (w : ℚ) (text : String) (keywords : List String) : ℚ :=
  w * ((keywords.map (fun k => (pyCount text (pyLower k) : ℚ))).sum)
    / (max 1 (pySplitLen text) : ℚ)

/-- `total_score` of one item (utils.py lines 118-121): title weight 0.7,
description 0.2, content 0.1. -/
def totalScore (keywords : List String) (news : NewsItem) : ℚ :=
  fieldScore (7/10) (pyLower news.title) keywords
    + fieldScore (2/10) (pyLower news.description) keywords
    + fieldScore (1/10) (pyLower news.content) keywords

/-- The exclusion test of `filter_by_keywords` (utils.py line 125): some
exclude keyword occurs, case-insensitively, in title, description or
content. -/
def excludeHit (exclude_keywords : List String) (news : NewsItem) : Bool :=
  exclude_keywords.any fun ex =>
    pySubstr (pyLower ex) (pyLower news.title)
      || pySubstr (pyLower ex) (pyLower news.description)
      || pySubstr (pyLower ex) (pyLower news.content)

/-- `filter_by_keywords` (utils.py lines 97-136).  Empty news list returns
`[]`; empty keyword list returns the input unchanged; otherwise each item is
scored, items hitting an exclude keyword are dropped, items with score at or
below the `0.01` threshold are dropped, survivors are annotated with their
score, and the result is sorted by descending `match_score`. -/
def filter_by_keywords (news_list : List NewsItem)
    (keywords : List String) (exclude_keywords : List String) : List NewsItem :=
  if news_list.isEmpty then []
  else if keywords.isEmpty then news_list
  else
    let filtered := news_list.filterMap fun news =>
      let total_score := totalScore keywords news
      if !exclude_keywords.isEmpty && excludeHit exclude_keywords news then
        none
      else if (1/100 : ℚ) < total_score then
        some { news with match_score := some total_score }
      else
        none
    sortDescBy (fun x => x.match_score.getD 0) filtered


/-! ## generate_github_pages: keyword grouping -/

/-- The combined text of line 74: `f"{title} {description} {content}"`. -/
def fullText (news : NewsItem) : String :=
  news.title ++ " " ++ news.description ++ " " ++ news.content

/-- `extract_keywords_from_text` (generate_github_pages.py lines 41-56):
keywords whose lowercase form occurs in the lowercased text, in keyword-list
order, keeping the original keyword spelling. -/
def extract_keywords_from_text (text : String) (keywords : List String) :
    List String :=
  keywords.filter fun keyword => pySubstr (pyLower keyword) (pyLower text)

/-- One step of `group_news_by_keywords` (lines 77-80): `if keyword not in
keyword_groups: keyword_groups[keyword] = []` then
`keyword_groups[keyword].append(news)`.  The Python dict is modelled by an
insertion-ordered association list. -/
def addToGroup (groups : List (String × List NewsItem)) (keyword : String)
    (news : NewsItem) : List (String × List NewsItem) :=
  if groups.any (fun p => p.1 = keyword) then
    groups.map fun p => if p.1 = keyword then (p.1, p.2 ++ [news]) else p
  else
    groups ++ [(keyword, [news])]

/-- `group_news_by_keywords` (generate_github_pages.py lines 59-81). -/
def group_news_by_keywords (news_list : List NewsItem)
    (keywords : List String) : List (String × List NewsItem) :=
  news_list.foldl
    (fun keyword_groups news =>
      (extract_keywords_from_text (fullText news) keywords).foldl
        (fun groups keyword => addToGroup groups keyword news) keyword_groups)
    []

/-- The group ordering used by `generate_html` (line 348):
`sorted(keyword_groups.items(), key=lambda x: len(x[1]), reverse=True)`. -/
def sortedKeywordGroups (news_list : List NewsItem) (keywords : List String) :
    List (String × List NewsItem) :=
  sortDescBy (fun p => p.2.length) (group_news_by_keywords news_list keywords)

/-! ## generate_github_pages: HTML renderer

The fixed text fragments below are the string literals of `generate_html`
copied verbatim (braces and apostrophes written with `\x` escapes).
`format_date` (lines 84-94) is a pure function of the date string alone
(Python `datetime.fromisoformat` / `strptime` / `strftime`); the renderer is
parametrised over it as `fd`, so every theorem below holds for the actual
formatter in particular. -/

/-- Literal HTML fragment of `generate_html` (generate_github_pages.py). -/
def htmlChunk1 : String :=
  "<!DOCTYPE html>\n<html lang=\"zh-CN\">\n<head>\n    <meta charset=\"UTF-8\">\n    <meta name=\"viewport\" content=\"width=device-width, initial-scale=1.0\">\n    <title>科技新闻聚合 - RSS精选</title>\n    <style>\n        * \x7b\n            margin: 0;\n            padding: 0;\n            box-sizing: border-box;\n        \x7d\n        body \x7b\n            font-family: -apple-system, BlinkMacSystemFont, \n                        \x27Segoe UI\x27, \x27PingFang SC\x27, \n                        \x27Hiragino Sans GB\x27, \x27Microsoft YaHei\x27, \n                        sans-serif;\n            line-height: 1.6;\n            color: #333;\n            background-color: #f5f5f5;\n        \x7d\n        .container \x7b\n            max-width: 1200px;\n            margin: 0 auto;\n            padding: 20px;\n        \x7d\n        header \x7b\n            background: linear-gradient(135deg, #667eea 0%, #764ba2 100%);\n            color: white;\n            padding: 40px 0;\n            text-align: center;\n            margin-bottom: 30px;\n            border-radius: 10px;\n            box-shadow: 0 4px 6px rgba(0,0,0,0.1);\n        \x7d\n        h1 \x7b\n            font-size: 2.5em;\n            margin-bottom: 10px;\n        \x7d\n        .subtitle \x7b\n            font-size: 1.2em;\n            opacity: 0.9;\n        \x7d\n        .stats \x7b\n            display: flex;\n            justify-content: center;\n            gap: 40px;\n            margin-top: 20px;\n            flex-wrap: wrap;\n        \x7d\n        .stat-item \x7b\n            text-align: center;\n        \x7d\n        .stat-number \x7b\n            font-size: 2em;\n            font-weight: bold;\n            display: block;\n        \x7d\n        .keyword-section \x7b\n            background: white;\n            margin-bottom: 30px;\n            border-radius: 10px;\n            box-shadow: 0 2px 4px rgba(0,0,0,0.1);\n            overflow: hidden;\n        \x7d\n        .keyword-header \x7b\n            background: #4CAF50;\n            color: white;\n            padding: 15px 20px;\n            font-size: 1.3em;\n            font-weight: bold;\n        \x7d\n        .news-list \x7b\n            padding: 0;\n        \x7d\n        .news-item \x7b\n            padding: 20px;\n            border-bottom: 1px solid #eee;\n            transition: background-color 0.3s;\n        \x7d\n        .news-item:hover \x7b\n            background-color: #f9f9f9;\n        \x7d\n        .news-item:last-child \x7b\n            border-bottom: none;\n        \x7d\n        .news-title \x7b\n            font-size: 1.2em;\n            font-weight: bold;\n            margin-bottom: 8px;\n        \x7d\n        .news-title a \x7b\n            color: #2c3e50;\n            text-decoration: none;\n        \x7d\n        .news-title a:hover \x7b\n            color: #667eea;\n            text-decoration: underline;\n        \x7d\n        .news-meta \x7b\n            color: #666;\n            font-size: 0.9em;\n            margin-bottom: 10px;\n        \x7d\n        .news-description \x7b\n            color: #555;\n            line-height: 1.5;\n            margin-bottom: 10px;\n        \x7d\n        .news-tags \x7b\n            display: flex;\n            gap: 8px;\n            flex-wrap: wrap;\n        \x7d\n        .tag \x7b\n            background: #e3f2fd;\n            color: #1976d2;\n            padding: 4px 8px;\n            border-radius: 12px;\n            font-size: 0.8em;\n        \x7d\n        .source-tag \x7b\n            background: #fff3e0;\n            color: #f57c00;\n        \x7d\n        .category-tag \x7b\n            background: #e8f5e8;\n            color: #388e3c;\n        \x7d\n        .footer \x7b\n            text-align: center;\n            padding: 40px 0;\n            color: #666;\n            border-top: 1px solid #ddd;\n            margin-top: 40px;\n        \x7d\n        .update-time \x7b\n            background: white;\n            padding: 15px;\n            border-radius: 10px;\n            box-shadow: 0 2px 4px rgba(0,0,0,0.1);\n            text-align: center;\n            margin-bottom: 20px;\n        \x7d\n        @media (max-width: 768px) \x7b\n            .container \x7b\n                padding: 5px;\n            \x7d\n            h1 \x7b\n                font-size: 1.8em;\n            \x7d\n            .subtitle \x7b\n                font-size: 1em;\n            \x7d\n            .stats \x7b\n                gap: 15px;\n                flex-direction: column;\n                align-items: center;\n            \x7d\n            .stat-item \x7b\n                margin-bottom: 10px;\n                width: 100%;\n                background: #f5f5f5;\n                padding: 10px;\n                border-radius: 8px;\n            \x7d\n            .stat-number \x7b\n                font-size: 1.5em;\n            \x7d\n            .keyword-header \x7b\n                padding: 12px 15px;\n                font-size: 1.1em;\n            \x7d\n            .news-item \x7b\n                padding: 12px;\n            \x7d\n            .news-title \x7b\n                font-size: 1.1em;\n            \x7d\n            .news-description \x7b\n                font-size: 0.9em;\n            \x7d\n            .news-tags \x7b\n                flex-wrap: wrap;\n                gap: 5px;\n            \x7d\n            .tag \x7b\n                padding: 3px 6px;\n                font-size: 0.75em;\n            \x7d\n        \x7d\n        @media (max-width: 480px) \x7b\n            h1 \x7b\n                font-size: 1.5em;\n            \x7d\n            .news-title \x7b\n                font-size: 1em;\n            \x7d\n            .news-meta \x7b\n                font-size: 0.8em;\n                display: flex;\n                flex-direction: column;\n                gap: 5px;\n            \x7d\n        \x7d\n    </style>\n</head>\n<body>\n    <div class=\"container\">\n        <header>\n            <h1>科技新闻聚合</h1>\n            <p class=\"subtitle\">基于关键词的智能新闻筛选与聚合</p>\n            <div class=\"stats\">\n                <div class=\"stat-item\">\n                    <span class=\"stat-number\">"

/-- Literal HTML fragment of `generate_html` (generate_github_pages.py). -/
def htmlChunk2 : String :=
  "</span>\n                    <span>篇精选文章</span>\n                </div>\n                <div class=\"stat-item\">\n                    <span class=\"stat-number\">"

/-- Literal HTML fragment of `generate_html` (generate_github_pages.py). -/
def htmlChunk3 : String :=
  "</span>\n                    <span>个关键词</span>\n                </div>\n                <div class=\"stat-item\">\n                    <span class=\"stat-number\">"

/-- Literal HTML fragment of `generate_html` (generate_github_pages.py). -/
def htmlChunk4 : String :=
  "</span>\n                    <span>个来源</span>\n                </div>\n            </div>\n        </header>\n        <div class=\"update-time\">\n            <strong>最后更新：</strong>"

/-- Literal HTML fragment of `generate_html` (generate_github_pages.py). -/
def htmlChunk5 : String :=
  " (UTC+8)\n        </div>\n"

/-- Literal HTML fragment of `generate_html` (generate_github_pages.py). -/
def sectionHeadA : String :=
  "\n        <div class=\"keyword-section\">\n            <div class=\"keyword-header\">\n                "

/-- Literal HTML fragment of `generate_html` (generate_github_pages.py). -/
def sectionHeadB : String :=
  " 篇)\n            </div>\n            <div class=\"news-list\">\n"

/-- Literal HTML fragment of `generate_html` (generate_github_pages.py). -/
def itemA : String :=
  "\n                <div class=\"news-item\">\n                    <div class=\"news-title\">\n                        <a href=\""

/-- Literal HTML fragment of `generate_html` (generate_github_pages.py). -/
def itemB : String :=
  "\" target=\"_blank\" rel=\"noopener noreferrer\">"

/-- Literal HTML fragment of `generate_html` (generate_github_pages.py). -/
def itemC : String :=
  "</a>\n                    </div>\n                    <div class=\"news-meta\">\n                        📅 "

/-- Literal HTML fragment of `generate_html` (generate_github_pages.py). -/
def itemD : String :=
  " | 🏢 "

/-- Literal HTML fragment of `generate_html` (generate_github_pages.py). -/
def itemE : String :=
  "\n                    </div>\n                    <div class=\"news-description\">\n                        "

/-- Literal HTML fragment of `generate_html` (generate_github_pages.py). -/
def itemF : String :=
  "\n                    </div>\n                    <div class=\"news-tags\">\n                        <span class=\"tag source-tag\">"

/-- Literal HTML fragment of `generate_html` (generate_github_pages.py). -/
def itemG : String :=
  "</span>\n                        <span class=\"tag category-tag\">"

/-- Literal HTML fragment of `generate_html` (generate_github_pages.py). -/
def itemH : String :=
  "</span>\n                    </div>\n                </div>\n"

/-- Literal HTML fragment of `generate_html` (generate_github_pages.py). -/
def sectionClose : String :=
  "\n            </div>\n        </div>\n"

/-- Literal HTML fragment of `generate_html` (generate_github_pages.py). -/
def htmlFooter : String :=
  "\n        <div class=\"footer\">\n            <p>由 RSS 新闻聚合器自动生成 | 数据来源：各大科技媒体 RSS 订阅源</p>\n            <p>更新时间：每6小时自动更新一次</p>\n        </div>\n    </div>\n</body>\n</html>\n"

/-- One news item block of `generate_html` (lines 356-380).  `title` and
`description` have HTML tags stripped, the description is truncated to 300
characters, and an empty `published` renders as the missing-date marker. -/
def renderNewsItem (fd : String → String) (news : NewsItem) : String :=
  let title := clean_html news.title
  let description := clean_html news.description
  let published :=
    if news.published = "" then "日期缺失" else fd news.published
  itemA ++ news.link ++ itemB ++ title ++ itemC ++ published ++ itemD
    ++ news.source ++ itemE ++ truncate_text description 300 ++ itemF
    ++ news.source ++ itemG ++ news.category ++ itemH

/-- One keyword section of `generate_html` (lines 348-384). -/
def renderSection (fd : String → String) (p : String × List NewsItem) :
    String :=
  sectionHeadA ++ p.1 ++ " (" ++ toString p.2.length ++ sectionHeadB
    ++ String.join (p.2.map (renderNewsItem fd)) ++ sectionClose

/-- `generate_html` (generate_github_pages.py lines 113-394).  `now` is the
`datetime.now().strftime('%Y-%m-%d %H:%M:%S')` timestamp of line 344, the
only input that is not a function of the news list and keyword list. -/
def generateHtml (fd : String → String) (news_data : List NewsItem)
    (keywords : List String) (now : String) : String :=
  (htmlChunk1 ++ toString news_data.length
      ++ htmlChunk2 ++ toString (group_news_by_keywords news_data keywords).length
      ++ htmlChunk3 ++ toString ((news_data.map (fun n => n.source)).dedup).length
      ++ htmlChunk4)
    ++ now
    ++ (htmlChunk5
      ++ String.join ((sortedKeywordGroups news_data keywords).map (renderSection fd))
      ++ htmlFooter)


/-! ## collect_rss: data model for the health tracker -/

/-- One configured RSS source (collect_rss.py lines 41-44). -/
structure Source where
  name : String
  url : String
  category : String
  enabled : Bool
deriving DecidableEq, Repr

/-- Per-URL health record (collect_rss.py lines 57-62).  ISO-timestamp
strings are modelled as abstract `Int` instants (`fromisoformat` inverts
`isoformat`). -/
structure HealthStatus where
  failures : Nat
  last_check : Option Int
  disabled : Bool
  last_disabled_time : Option Int
deriving DecidableEq, Repr

/-- The default record created on first sight of a URL (lines 57-62). -/
def defaultStatus : HealthStatus :=
  { failures := 0, last_check := none, disabled := false,
    last_disabled_time := none }

/-- The health-check policy (lines 51-54).  `check_interval` is the
`timedelta(hours=check_interval_hours)` in the same units as instants. -/
structure HealthConfig where
  failure_threshold : Nat
  check_interval : Int
  auto_disable : Bool
deriving DecidableEq, Repr

/-- An invalid-source diagnostic record (lines 105-110 and elsewhere). -/
structure InvalidSourceRecord where
  name : String
  url : String
  reason : String
  timestamp : Int
deriving DecidableEq, Repr

/-! ### The shared health-status dict

`health_status` is a Python dict keyed by URL, shared between
`process_rss_source` and the aggregation loop of `collect_rss_feeds`.  It is
modelled as an insertion-ordered association list.  `source_status =
health_status.get(url, default)` returns an alias of the stored dict when the
key is present, so an in-place mutation of `source_status` is visible in the
map exactly when the key is present; `hMutate` models such a mutation and
`hInsert` models the assignment `health_status[url] = source_status`. -/

/-- Association list standing for the health dict. -/
abbrev HMap : Type := List (String × HealthStatus)

/-- Dict lookup. -/
def hLookup : HMap → String → Option HealthStatus
  | [], _ => none
  | p :: rest, k => if p.1 = k then some p.2 else hLookup rest k

/-- Dict assignment `m[k] = v`: replace in place, else append. -/
def hInsert : HMap → String → HealthStatus → HMap
  | [], k, v => [(k, v)]
  | p :: rest, k, v =>
    if p.1 = k then (k, v) :: rest else p :: hInsert rest k v

/-- In-place mutation of the aliased record: visible in the map only when
the key is present. -/
def hMutate (m : HMap) (k : String) (v : HealthStatus) : HMap :=
  if (hLookup m k).isSome then hInsert m k v else m

/-! ## collect_rss: feed entries and the date filter -/

/-- A parsed feed entry (the fields `process_rss_source` reads, lines
154-191).  `published_parsed` abstracts the `struct_time` by the UTC
calendar day it denotes; `hasPublishedParsed` is `'published_parsed' in
entry`.  `hasContent`/`contentList` model `hasattr(entry, 'content')` and
the `entry.content` list of values. -/
structure Entry where
  title : String
  link : String
  description : String
  published : String
  hasPublishedParsed : Bool
  published_parsed : Int
  hasContent : Bool
  contentList : List String
  summary : String
deriving DecidableEq, Repr

/-- Models collect_rss.py line 160,
`datetime.fromtimestamp(time.mktime(entry.published_parsed),
datetime.timezone.utc)`.  Line 11 is `from datetime import datetime,
timedelta`, so `datetime` names the class and the module attribute
`timezone` is not in scope; the attribute lookup `datetime.timezone` raises
`AttributeError` before any conversion happens, whatever the input value. -/
def publishedDateUtc (_published_parsed : Int) : Except String Int :=
  Except.error
    "AttributeError: type object datetime.datetime has no attribute timezone"

/-- The per-entry keep test of lines 154-173: entries without
`published_parsed` are skipped; for the rest the `try` block of lines
158-167 either yields a date that must equal the current UTC date, or raises
(the raise is caught at line 168 and the entry skipped). -/
def entryDateKeep (current_date : Int) (e : Entry) : Bool :=
  if e.hasPublishedParsed then
    match publishedDateUtc e.published_parsed with
    | Except.ok d => decide (d = current_date)
    | Except.error _ => false
  else false

/-- The keep test lines 154-173 document and the spec states: keep exactly
the entries whose `published_parsed` falls on the current UTC date (what
line 160 would compute with `timezone.utc` imported). -/
def entryDateKeepIntended (current_date : Int) (e : Entry) : Bool :=
  e.hasPublishedParsed && decide (e.published_parsed = current_date)

/-- Build the news dict of lines 175-189 from a surviving entry. -/
def entryNewsItem (name category collected_at : String) (e : Entry) :
    NewsItem :=
  { title := e.title, link := e.link, description := e.description,
    published := e.published, source := name, category := category,
    collected_at := collected_at,
    content := if e.hasContent then e.contentList.headD "" else e.summary,
    match_score := none }

/-- The entry loop of lines 154-191. -/
def processEntries (name category collected_at : String) (current_date : Int)
    (entries : List Entry) : List NewsItem :=
  entries.filterMap fun e =>
    if entryDateKeep current_date e then
      some (entryNewsItem name category collected_at e)
    else none

/-! ## collect_rss: process_rss_source -/

/-- Outcome of the fetch-and-parse block (lines 123-152), an input to the
model since it depends on the network and cache:
`entries` covers a successful parse (including the auto-corrected encoding
warning, lines 139-140); `parseFatal` is a bozo error that is not a
`CharacterEncodingOverride` (lines 141-152); `fetchError` is any exception
escaping the block (lines 202-211). -/
inductive FetchOutcome
  | entries (es : List Entry)
  | parseFatal (err : String)
  | fetchError (msg : String)
deriving DecidableEq, Repr

/-- The triple returned by `process_rss_source`, together with the shared
health map as left by its in-place mutations. -/
structure ProcessResult where
  news : List NewsItem
  invalid : Option InvalidSourceRecord
  status : Option HealthStatus
  health : HMap

/-- The cool-down guard of lines 65-68: disabled, with a recorded disable
time, and still inside the check interval. -/
def skipGuard (cfg : HealthConfig) (now : Int) (st : HealthStatus) : Bool :=
  st.disabled &&
    (match st.last_disabled_time with
     | some t => decide (now - t < cfg.check_interval)
     | none => false)

/-- The re-enable reset of lines 71-79: a disabled source past its cool-down
(or with no recorded disable time) is cleared for re-checking. -/
def cooldownReset (st : HealthStatus) : HealthStatus :=
  if st.disabled then { st with disabled := false, failures := 0 } else st

/-- `source_status['failures'] += 1` on an optional record (lines 145 and
205; with health checking enabled the record is always present). -/
def bumpFailures : Option HealthStatus → Option HealthStatus
  | some st => some { st with failures := st.failures + 1 }
  | none => none

/-- Write an in-place mutation of the optional record back through the
aliasing rule. -/
def mutateOpt (m : HMap) (url : String) : Option HealthStatus → HMap
  | some st => hMutate m url st
  | none => m

/-- Lines 120-213 of `process_rss_source`: everything after the health-check
block.  `stOpt` and `m` are `source_status` and the shared map as the
health-check block left them. -/
def restOfProcess (source : Source) (stOpt : Option HealthStatus) (m : HMap)
    (health_check_enabled : Bool) (fetch : FetchOutcome) (now : Int)
    (collected_at : String) (current_date : Int) : ProcessResult :=
  if source.url = "" ∨ source.enabled = false then
    ⟨[], none, stOpt, m⟩
  else
    match fetch with
    | FetchOutcome.entries es =>
      let news := processEntries source.name source.category collected_at
        current_date es
      if news.isEmpty then
        ⟨news, some ⟨source.name, source.url, "0条新闻", now⟩, stOpt, m⟩
      else
        ⟨news, none, stOpt, m⟩
    | FetchOutcome.parseFatal err =>
      let stOpt' := if health_check_enabled then bumpFailures stOpt else stOpt
      let m' := if health_check_enabled then mutateOpt m source.url stOpt'
        else m
      ⟨[], some ⟨source.name, source.url, "RSS解析失败: " ++ err, now⟩,
        stOpt', m'⟩
    | FetchOutcome.fetchError msg =>
      let stOpt' := if health_check_enabled && stOpt.isSome then
          bumpFailures stOpt
        else stOpt
      let m' := if health_check_enabled && stOpt.isSome then
          mutateOpt m source.url stOpt'
        else m
      ⟨[], some ⟨source.name, source.url, "处理出错: " ++ msg, now⟩,
        stOpt', m'⟩

/-- Lines 113-118 followed by the rest: the write-back
`health_status[url] = source_status` (line 114), the post-check disabled
guard (lines 117-118, never taken because both callers pass a record with
`disabled = false`), then `restOfProcess`. -/
def afterProbe (source : Source) (health2 : HMap)
    (now : Int) (st2 : HealthStatus) (fetch : FetchOutcome)
    (collected_at : String) (current_date : Int) : ProcessResult :=
  let health4 := hInsert health2 source.url st2
  if st2.disabled then ⟨[], none, some st2, health4⟩
  else restOfProcess source (some st2) health4 true fetch now collected_at
    current_date

/-- `process_rss_source` (collect_rss.py lines 31-213).  The reachability
probe's outcome is the input `probeOk` (`True` iff the HEAD request
succeeded with status < 400, lines 84-93; any exception counts as
failure). -/
def process_rss_source (source : Source) (health_check_enabled : Bool)
    (cfg : HealthConfig) (health : HMap) (now : Int) (probeOk : Bool)
    (fetch : FetchOutcome) (collected_at : String) (current_date : Int) :
    ProcessResult :=
  if health_check_enabled then
    let st0 := (hLookup health source.url).getD defaultStatus
    if skipGuard cfg now st0 then
      ⟨[], none, some st0, health⟩
    else
      let st1 := cooldownReset st0
      let health1 :=
        if st0.disabled then hMutate health source.url st1 else health
      if probeOk then
        let st2 := { st1 with failures := 0, last_check := some now }
        let health2 := hMutate health1 source.url st2
        afterProbe source health2 now st2 fetch collected_at current_date
      else
        let st2 :=
          { st1 with failures := st1.failures + 1, last_check := some now }
        let health2 := hMutate health1 source.url st2
        if cfg.failure_threshold ≤ st2.failures ∧ cfg.auto_disable = true then
          let st3 :=
            { st2 with disabled := true, last_disabled_time := some now }
          ⟨[], some ⟨source.name, source.url,
              "健康检查失败" ++ toString st3.failures ++ "次", now⟩,
            some st3, hMutate health2 source.url st3⟩
        else
          afterProbe source health2 now st2 fetch collected_at
            current_date
  else
    restOfProcess source none health false fetch now collected_at current_date

/-! ## collect_rss: aggregation (collect_rss_feeds, lines 250-262) -/

/-- The aggregation step for one completed task (lines 255-258): when the
status record is truthy (a record always is) and health checking is on, the
map is updated under `invalid_source['url']` -- but only when an invalid
record exists and its URL is truthy (non-empty). -/
def aggregateOne (health_check_enabled : Bool) (m : HMap)
    (r : ProcessResult) : HMap :=
  match r.status with
  | some st =>
    if health_check_enabled then
      match r.invalid with
      | some inv => if inv.url = "" then m else hInsert m inv.url st
      | none => m
    else m
  | none => m

/-- Processing one source followed by its aggregation step, acting on the
shared map. -/
def runSourceAndAggregate (source : Source) (health_check_enabled : Bool)
    (cfg : HealthConfig) (health : HMap) (now : Int) (probeOk : Bool)
    (fetch : FetchOutcome) (collected_at : String) (current_date : Int) :
    HMap :=
  let r := process_rss_source source health_check_enabled cfg health now
    probeOk fetch collected_at current_date
  aggregateOne health_check_enabled r.health r

/-! ## Concrete inputs used in evaluation witnesses and counterexamples -/

/-- The spec section 8 example item with title "AI breakthrough". -/
def demoAI : NewsItem :=
  { title := "AI breakthrough", link := "http://a.example", description := "",
    content := "", published := "", source := "TechDaily", category := "tech",
    collected_at := "2024-01-01 00:00:00", match_score := none }

/-- The spec section 8 example item with title "Sports update". -/
def demoSports : NewsItem :=
  { title := "Sports update", link := "http://s.example", description := "",
    content := "", published := "", source := "SportsDaily",
    category := "sports", collected_at := "2024-01-01 00:00:00",
    match_score := none }

/-- An item that matches the include keyword "AI" three times but also the
exclude keyword "spam". -/
def demoSpam : NewsItem :=
  { title := "AI AI AI spam letter", link := "http://x.example",
    description := "", content := "", published := "", source := "SpamBay",
    category := "tech", collected_at := "2024-01-01 00:00:00",
    match_score := none }

/-- An item whose text matches both keywords "AI" and "Crypto". -/
def demoBoth : NewsItem :=
  { title := "AI meets Crypto", link := "http://b.example", description := "",
    content := "", published := "", source := "TechDaily", category := "tech",
    collected_at := "2024-01-01 00:00:00", match_score := none }

/-- A health record disabled at time 95, still cooling down at time 100. -/
def demoDisabled : HealthStatus :=
  { failures := 3, last_check := some 95, disabled := true,
    last_disabled_time := some 95 }

/-- A demo source with a non-empty URL. -/
def demoSource : Source :=
  { name := "feed", url := "http://feed.example/rss", category := "tech",
    enabled := true }

/-- A strict health policy: one failure suffices for auto-disable. -/
def demoCfg : HealthConfig :=
  { failure_threshold := 1, check_interval := 24, auto_disable := true }

/-- A source whose configured URL is the empty string. -/
def emptyUrlSource : Source :=
  { name := "feed", url := "", category := "tech", enabled := true }

/-- A feed entry whose `published_parsed` falls on UTC day 42. -/
def entryToday : Entry :=
  { title := "Today story", link := "http://t", description := "d",
    published := "Mon, 01 Jan 2024 08:00:00 +0000",
    hasPublishedParsed := true, published_parsed := 42, hasContent := false,
    contentList := [], summary := "s" }

/-! # Theorems -/

section Theorems

attribute [local semireducible] Rat.mul Rat.inv Rat.add

/-! ## Sorting lemmas -/

theorem mem_insertDescBy {α β : Type} [LinearOrder β] (key : α → β)
    (x a : α) (l : List α) :
    a ∈ insertDescBy key x l ↔ a = x ∨ a ∈ l := by
  induction l with
  | nil => simp [insertDescBy]
  | cons y ys ih =>
    by_cases h : key x ≤ key y
    · simp only [insertDescBy, if_pos h, List.mem_cons, ih]
      tauto
    · simp only [insertDescBy, if_neg h, List.mem_cons]

theorem mem_foldl_insertDescBy {α β : Type} [LinearOrder β] (key : α → β)
    (a : α) (l : List α) :
    ∀ acc : List α,
      (a ∈ l.foldl (fun acc x => insertDescBy key x acc) acc ↔
        a ∈ acc ∨ a ∈ l) := by
  induction l with
  | nil => intro acc; simp
  | cons x xs ih =>
    intro acc
    rw [List.foldl_cons, ih, mem_insertDescBy]
    simp only [List.mem_cons]
    tauto

theorem mem_sortDescBy {α β : Type} [LinearOrder β] (key : α → β)
    (a : α) (l : List α) : a ∈ sortDescBy key l ↔ a ∈ l := by
  rw [sortDescBy, mem_foldl_insertDescBy]
  simp

theorem chain'_insertDescBy {α β : Type} [LinearOrder β] (key : α → β)
    (x : α) (l : List α)
    (h : List.Chain' (fun a b => key b ≤ key a) l) :
    List.Chain' (fun a b => key b ≤ key a) (insertDescBy key x l) := by
  induction l with
  | nil => simp [insertDescBy]
  | cons y ys ih =>
    rw [List.chain'_cons'] at h
    by_cases hxy : key x ≤ key y
    · rw [insertDescBy, if_pos hxy, List.chain'_cons']
      refine ⟨?_, ih h.2⟩
      intro z hz
      cases ys with
      | nil =>
        simp only [insertDescBy, List.head?_cons, Option.mem_def,
          Option.some.injEq] at hz
        subst hz; exact hxy
      | cons w ws =>
        by_cases hxw : key x ≤ key w
        · rw [insertDescBy, if_pos hxw] at hz
          simp only [List.head?_cons, Option.mem_def, Option.some.injEq] at hz
          subst hz
          exact h.1 w (by simp)
        · rw [insertDescBy, if_neg hxw] at hz
          simp only [List.head?_cons, Option.mem_def, Option.some.injEq] at hz
          subst hz; exact hxy
    · rw [insertDescBy, if_neg hxy, List.chain'_cons]
      exact ⟨le_of_lt (lt_of_not_le hxy), List.chain'_cons'.mpr h⟩

theorem chain'_foldl_insertDescBy {α β : Type} [LinearOrder β] (key : α → β)
    (l : List α) :
    ∀ acc : List α, List.Chain' (fun a b => key b ≤ key a) acc →
      List.Chain' (fun a b => key b ≤ key a)
        (l.foldl (fun acc x => insertDescBy key x acc) acc) := by
  induction l with
  | nil => intro acc h; simpa using h
  | cons x xs ih =>
    intro acc h
    rw [List.foldl_cons]
    exact ih _ (chain'_insertDescBy key x acc h)

theorem chain'_sortDescBy {α β : Type} [LinearOrder β] (key : α → β)
    (l : List α) :
    List.Chain' (fun a b => key b ≤ key a) (sortDescBy key l) :=
  chain'_foldl_insertDescBy key l [] List.chain'_nil

/-! ## Membership in the filter output -/

theorem mem_filter_by_keywords_elim {news_list : List NewsItem}
    {keywords exclude_keywords : List String} {x : NewsItem}
    (hk : keywords.isEmpty = false)
    (hx : x ∈ filter_by_keywords news_list keywords exclude_keywords) :
    ∃ n ∈ news_list,
      (!exclude_keywords.isEmpty && excludeHit exclude_keywords n) = false ∧
      (1/100 : ℚ) < totalScore keywords n ∧
      x = { n with match_score := some (totalScore keywords n) } := by
  rw [filter_by_keywords] at hx
  by_cases hn : news_list.isEmpty
  · rw [if_pos hn] at hx
    simp at hx
  · rw [if_neg hn, if_neg (by simp [hk])] at hx
    rw [mem_sortDescBy, List.mem_filterMap] at hx
    obtain ⟨n, hnl, hguard⟩ := hx
    dsimp only at hguard
    by_cases hex :
        (!exclude_keywords.isEmpty && excludeHit exclude_keywords n) = true
    · rw [if_pos hex] at hguard
      cases hguard
    · rw [if_neg hex] at hguard
      by_cases hlt : (1/100 : ℚ) < totalScore keywords n
      · rw [if_pos hlt] at hguard
        exact ⟨n, hnl, Bool.eq_false_iff.mpr hex, hlt,
          (Option.some.inj hguard).symm⟩
      · rw [if_neg hlt] at hguard
        cases hguard

/-! ## Claims C4, C5, C6, C10 -/

/-- C4: with a non-empty include-keyword list, no item of the filter output
matches any exclude keyword (case-insensitive substring of title,
description or content) -- an item hit by an exclude keyword is dropped
regardless of its score, because the exclusion branch of utils.py line 126
runs before the score test. -/
theorem C4_exclude_always_wins (news_list : List NewsItem)
    (keywords exclude_keywords : List String) (hk : keywords ≠ [])
    (x : NewsItem)
    (hx : x ∈ filter_by_keywords news_list keywords exclude_keywords) :
    excludeHit exclude_keywords x = false := by
  have hk' : keywords.isEmpty = false := by
    cases keywords with
    | nil => exact absurd rfl hk
    | cons a l => rfl
  obtain ⟨n, _, hex, _, hxn⟩ := mem_filter_by_keywords_elim hk' hx
  subst hxn
  show excludeHit exclude_keywords n = false
  by_cases he : exclude_keywords.isEmpty
  · cases exclude_keywords with
    | nil => rfl
    | cons a l => cases he
  · have hb : (!exclude_keywords.isEmpty) = true := by
      simp [he]
    rwa [hb, Bool.true_and] at hex

/-- C5: the filter on an empty news list yields the empty list whatever the
keyword lists are, and the filter with an empty include-keyword list returns
the input list itself -- unfiltered, in order, and unannotated (utils.py
lines 106-109). -/
theorem C5_empty_argument_cases (news_list : List NewsItem)
    (keywords exclude_keywords₁ exclude_keywords₂ : List String) :
    filter_by_keywords [] keywords exclude_keywords₁ = [] ∧
    filter_by_keywords news_list [] exclude_keywords₂ = news_list := by
  refine ⟨rfl, ?_⟩
  cases news_list <;> rfl

/-- C6: with a non-empty include-keyword list, every item of the filter
output carries a `match_score`, and the output is sorted by non-increasing
`match_score` (utils.py lines 128-136). -/
theorem C6_output_scored_and_sorted (news_list : List NewsItem)
    (keywords exclude_keywords : List String) (hk : keywords ≠ []) :
    (∀ x ∈ filter_by_keywords news_list keywords exclude_keywords,
        x.match_score.isSome = true) ∧
    List.Chain' (fun a b => b.match_score.getD 0 ≤ a.match_score.getD 0)
      (filter_by_keywords news_list keywords exclude_keywords) := by
  have hk' : keywords.isEmpty = false := by
    cases keywords with
    | nil => exact absurd rfl hk
    | cons a l => rfl
  constructor
  · intro x hx
    obtain ⟨n, _, _, _, hxn⟩ := mem_filter_by_keywords_elim hk' hx
    rw [hxn]
    rfl
  · rw [filter_by_keywords]
    by_cases hn : news_list.isEmpty
    · rw [if_pos hn]
      exact List.chain'_nil
    · rw [if_neg hn, if_neg (by simp [hk'])]
      exact chain'_sortDescBy _ _

/-- C10: with a non-empty include-keyword list every output item's recorded
`match_score` is its weighted score and is strictly greater than the 0.01
threshold; consequently an item whose score is 0.01 or less never reaches
the output, exclude keywords or not (utils.py lines 128-132). -/
theorem C10_score_above_threshold (news_list : List NewsItem)
    (keywords exclude_keywords : List String) (hk : keywords ≠ [])
    (x : NewsItem)
    (hx : x ∈ filter_by_keywords news_list keywords exclude_keywords) :
    x.match_score = some (totalScore keywords x) ∧
    (1/100 : ℚ) < totalScore keywords x := by
  have hk' : keywords.isEmpty = false := by
    cases keywords with
    | nil => exact absurd rfl hk
    | cons a l => rfl
  obtain ⟨n, _, _, hlt, hxn⟩ := mem_filter_by_keywords_elim hk' hx
  subst hxn
  exact ⟨rfl, hlt⟩

/-- Evaluation witness for C4: filtering `[demoSpam, demoAI]` with include
keyword "AI" and exclude keyword "spam", the surviving scored item is clear
of every exclude keyword (and `demoSpam`, which matches "AI" three times,
is gone). -/
theorem C4_witness :
    excludeHit ["spam"]
      { demoAI with match_score := some (totalScore ["AI"] demoAI) } = false :=
  C4_exclude_always_wins [demoSpam, demoAI] ["AI"] ["spam"] (by decide)
    { demoAI with match_score := some (totalScore ["AI"] demoAI) } (by decide)

/-- Evaluation witness for C6 on `[demoSports, demoAI]` with keyword "AI". -/
theorem C6_witness :
    ({ demoAI with match_score := some (totalScore ["AI"] demoAI)
        } : NewsItem).match_score.isSome = true ∧
    List.Chain' (fun a b => b.match_score.getD 0 ≤ a.match_score.getD 0)
      (filter_by_keywords [demoSports, demoAI] ["AI"] []) :=
  ⟨(C6_output_scored_and_sorted [demoSports, demoAI] ["AI"] [] (by decide)).1
      { demoAI with match_score := some (totalScore ["AI"] demoAI) }
      (by decide),
    (C6_output_scored_and_sorted [demoSports, demoAI] ["AI"] [] (by decide)).2⟩

/-- Evaluation witness for C10 on `[demoAI]` with keyword "AI": the output
item records its own weighted score, which exceeds the threshold. -/
theorem C10_witness :
    ({ demoAI with match_score := some (totalScore ["AI"] demoAI)
        } : NewsItem).match_score
      = some (totalScore ["AI"]
          { demoAI with match_score := some (totalScore ["AI"] demoAI) }) ∧
    (1/100 : ℚ) < totalScore ["AI"]
        { demoAI with match_score := some (totalScore ["AI"] demoAI) } :=
  C10_score_above_threshold [demoAI] ["AI"] [] (by decide)
    { demoAI with match_score := some (totalScore ["AI"] demoAI) } (by decide)

/-! ## Grouping lemmas (C7) -/

theorem addToGroup_mem_self (groups : List (String × List NewsItem))
    (k : String) (n : NewsItem) :
    ∃ g ∈ addToGroup groups k n, g.1 = k ∧ n ∈ g.2 := by
  rw [addToGroup]
  by_cases h : groups.any (fun p => decide (p.1 = k)) = true
  · rw [if_pos h]
    obtain ⟨p, hp, hpk⟩ := List.any_eq_true.mp h
    rw [decide_eq_true_eq] at hpk
    refine ⟨(p.1, p.2 ++ [n]), List.mem_map.mpr ⟨p, hp, ?_⟩, hpk, by simp⟩
    rw [if_pos hpk]
  · rw [if_neg h]
    exact ⟨(k, [n]), List.mem_append_right _ (by simp), rfl, by simp⟩

theorem addToGroup_mem_mono (groups : List (String × List NewsItem))
    (k : String) (n : NewsItem) {k' : String} {n' : NewsItem}
    (h : ∃ g ∈ groups, g.1 = k' ∧ n' ∈ g.2) :
    ∃ g ∈ addToGroup groups k n, g.1 = k' ∧ n' ∈ g.2 := by
  obtain ⟨g, hg, hgk, hgn⟩ := h
  rw [addToGroup]
  by_cases hany : groups.any (fun p => decide (p.1 = k)) = true
  · rw [if_pos hany]
    by_cases hgk2 : g.1 = k
    · exact ⟨(g.1, g.2 ++ [n]), List.mem_map.mpr ⟨g, hg, by rw [if_pos hgk2]⟩,
        hgk, List.mem_append_left _ hgn⟩
    · exact ⟨g, List.mem_map.mpr ⟨g, hg, by rw [if_neg hgk2]⟩, hgk, hgn⟩
  · rw [if_neg hany]
    exact ⟨g, List.mem_append_left _ hg, hgk, hgn⟩

theorem foldl_addToGroup_mono (n : NewsItem) (ks : List String)
    {k' : String} {n' : NewsItem} :
    ∀ groups, (∃ g ∈ groups, g.1 = k' ∧ n' ∈ g.2) →
      ∃ g ∈ ks.foldl (fun gs k => addToGroup gs k n) groups,
        g.1 = k' ∧ n' ∈ g.2 := by
  induction ks with
  | nil => intro groups h; simpa using h
  | cons k₀ rest ih =>
    intro groups h
    rw [List.foldl_cons]
    exact ih _ (addToGroup_mem_mono groups k₀ n h)

theorem foldl_addToGroup_self (n : NewsItem) (ks : List String) (k : String)
    (hk : k ∈ ks) :
    ∀ groups, ∃ g ∈ ks.foldl (fun gs k₁ => addToGroup gs k₁ n) groups,
      g.1 = k ∧ n ∈ g.2 := by
  induction ks with
  | nil => cases hk
  | cons k₀ rest ih =>
    intro groups
    rw [List.foldl_cons]
    rcases List.mem_cons.mp hk with he | hr
    · subst he
      exact foldl_addToGroup_mono n rest _ (addToGroup_mem_self groups k n)
    · exact ih hr _

theorem group_step_mono (keywords : List String) (news : List NewsItem)
    {k' : String} {n' : NewsItem} :
    ∀ groups, (∃ g ∈ groups, g.1 = k' ∧ n' ∈ g.2) →
      ∃ g ∈ news.foldl
          (fun keyword_groups nw =>
            (extract_keywords_from_text (fullText nw) keywords).foldl
              (fun groups keyword => addToGroup groups keyword nw)
              keyword_groups)
          groups,
        g.1 = k' ∧ n' ∈ g.2 := by
  induction news with
  | nil => intro groups h; simpa using h
  | cons m rest ih =>
    intro groups h
    rw [List.foldl_cons]
    exact ih _ (foldl_addToGroup_mono m _ _ h)

theorem group_news_mem_aux (keywords : List String) (n : NewsItem)
    (k : String) (hk : k ∈ extract_keywords_from_text (fullText n) keywords) :
    ∀ news : List NewsItem, n ∈ news →
      ∀ groups,
        ∃ g ∈ news.foldl
            (fun keyword_groups nw =>
              (extract_keywords_from_text (fullText nw) keywords).foldl
                (fun groups keyword => addToGroup groups keyword nw)
                keyword_groups)
            groups,
          g.1 = k ∧ n ∈ g.2 := by
  intro news
  induction news with
  | nil => intro hn; cases hn
  | cons m rest ih =>
    intro hn groups
    rw [List.foldl_cons]
    rcases List.mem_cons.mp hn with he | hr
    · subst he
      exact group_step_mono keywords rest _
        (foldl_addToGroup_self n _ k hk groups)
    · exact ih hr _

theorem group_news_mem (news_list : List NewsItem) (keywords : List String)
    (n : NewsItem) (k : String) (hn : n ∈ news_list)
    (hk : k ∈ extract_keywords_from_text (fullText n) keywords) :
    ∃ g ∈ group_news_by_keywords news_list keywords, g.1 = k ∧ n ∈ g.2 := by
  rw [group_news_by_keywords]
  exact group_news_mem_aux keywords n k hk news_list hn []

/-! ## Claim C7 -/

/-- C7: the renderer's grouping places every item into the group of each
keyword occurring (case-insensitively) in the item's combined
title/description/content, so an item matching two keywords is in both
groups, and the group list rendered by `generate_html` is ordered by
non-increasing member count. -/
theorem C7_grouping_and_order (news_list : List NewsItem)
    (keywords : List String) :
    (∀ n ∈ news_list, ∀ k ∈ keywords,
        pySubstr (pyLower k) (pyLower (fullText n)) = true →
        ∃ g ∈ sortedKeywordGroups news_list keywords, g.1 = k ∧ n ∈ g.2) ∧
    List.Chain' (fun a b => b.2.length ≤ a.2.length)
      (sortedKeywordGroups news_list keywords) := by
  constructor
  · intro n hn k hk hmatch
    have hk' : k ∈ extract_keywords_from_text (fullText n) keywords := by
      rw [extract_keywords_from_text, List.mem_filter]
      exact ⟨hk, hmatch⟩
    obtain ⟨g, hg, hgp⟩ := group_news_mem news_list keywords n k hn hk'
    rw [sortedKeywordGroups]
    exact ⟨g, (mem_sortDescBy _ g _).mpr hg, hgp⟩
  · rw [sortedKeywordGroups]
    exact chain'_sortDescBy _ _

/-- Evaluation witness for C7: `demoBoth` matches both "AI" and "Crypto"
and lands in both rendered groups. -/
theorem C7_witness :
    (∃ g ∈ sortedKeywordGroups [demoBoth] ["AI", "Crypto"],
        g.1 = "AI" ∧ demoBoth ∈ g.2) ∧
    (∃ g ∈ sortedKeywordGroups [demoBoth] ["AI", "Crypto"],
        g.1 = "Crypto" ∧ demoBoth ∈ g.2) :=
  ⟨(C7_grouping_and_order [demoBoth] ["AI", "Crypto"]).1 demoBoth (by decide)
      "AI" (by decide) (by decide),
    (C7_grouping_and_order [demoBoth] ["AI", "Crypto"]).1 demoBoth (by decide)
      "Crypto" (by decide) (by decide)⟩

/-! ## Claim C9 -/

/-- C9: `generate_html` is deterministic in its inputs apart from the
generation timestamp: for any two timestamps the rendered pages share one
byte-identical prefix and one byte-identical suffix, both depending only on
the news list, the keyword list and the pure date formatter `fd` -- the
timestamp of line 344 is the only varying part. -/
theorem C9_deterministic_up_to_timestamp (fd : String → String)
    (news_data : List NewsItem) (keywords : List String) (t₁ t₂ : String) :
    ∃ p s, generateHtml fd news_data keywords t₁ = p ++ t₁ ++ s ∧
      generateHtml fd news_data keywords t₂ = p ++ t₂ ++ s :=
  ⟨htmlChunk1 ++ toString news_data.length
      ++ htmlChunk2
      ++ toString (group_news_by_keywords news_data keywords).length
      ++ htmlChunk3
      ++ toString ((news_data.map (fun n => n.source)).dedup).length
      ++ htmlChunk4,
    htmlChunk5
      ++ String.join ((sortedKeywordGroups news_data keywords).map
          (renderSection fd))
      ++ htmlFooter,
    rfl, rfl⟩

/-! ## Claim C3 -/

/-- C3 (code bug): `entryToday` is dated on the current UTC day (42), so the
filter that lines 154-173 document -- and the spec states -- keeps it, yet
the entry loop emits nothing for it: line 160 evaluates `datetime.timezone`
while line 11 imports only the `datetime` class, so every dated entry raises
`AttributeError` inside the per-entry `try` and is skipped, and entries
without a date are skipped as well -- the fetch output is empty whatever the
entries are. -/
theorem C3_today_entry_dropped :
    entryDateKeepIntended 42 entryToday = true ∧
    entryDateKeep 42 entryToday = false ∧
    processEntries "feed" "tech" "2024-01-01 00:00:00" 42 [entryToday] = [] :=
  ⟨rfl, rfl, rfl⟩

/-! ## Claim C1 -/

/-- C1: with health checking on and `auto_disable` set, a probed source
whose failed probe brings its consecutive-failure count to the threshold is
disabled on the spot: the returned status has `disabled = true` and
`last_disabled_time` stamped with the current time, exactly one
`InvalidSourceRecord` is produced for that source in this run (carrying its
URL and the current time), and no news is returned. -/
theorem C1_auto_disable (source : Source) (cfg : HealthConfig) (health : HMap)
    (now : Int) (fetch : FetchOutcome) (collected_at : String)
    (current_date : Int) (hauto : cfg.auto_disable = true)
    (hskip : skipGuard cfg now
      ((hLookup health source.url).getD defaultStatus) = false)
    (hthresh : cfg.failure_threshold ≤
      (cooldownReset
        ((hLookup health source.url).getD defaultStatus)).failures + 1) :
    ∃ st inv,
      (process_rss_source source true cfg health now false fetch collected_at
          current_date).status = some st ∧
      st.disabled = true ∧ st.last_disabled_time = some now ∧
      (process_rss_source source true cfg health now false fetch collected_at
          current_date).invalid = some inv ∧
      inv.url = source.url ∧ inv.timestamp = now ∧
      (process_rss_source source true cfg health now false fetch collected_at
          current_date).news = [] := by
  simp only [process_rss_source, hskip, Bool.false_eq_true, if_false,
    if_true]
  rw [if_pos ⟨hthresh, hauto⟩]
  exact ⟨_, _, rfl, rfl, rfl, rfl, rfl, rfl, rfl⟩

/-- Evaluation witness for C1: a never-seen source, threshold 1, failing
probe at time 100. -/
theorem C1_witness :
    ∃ st inv,
      (process_rss_source demoSource true demoCfg [] 100 false
          (FetchOutcome.entries []) "c" 0).status = some st ∧
      st.disabled = true ∧ st.last_disabled_time = some 100 ∧
      (process_rss_source demoSource true demoCfg [] 100 false
          (FetchOutcome.entries []) "c" 0).invalid = some inv ∧
      inv.url = demoSource.url ∧ inv.timestamp = 100 ∧
      (process_rss_source demoSource true demoCfg [] 100 false
          (FetchOutcome.entries []) "c" 0).news = [] :=
  C1_auto_disable demoSource demoCfg [] 100 (FetchOutcome.entries []) "c" 0
    rfl (by decide) (by decide)

/-! ## Claim C2 -/

/-- C2: a source recorded as disabled whose cool-down has not elapsed is
skipped outright: no news, no invalid record, the status returned is the
stored record itself, the shared map is untouched by processing, and the
aggregation step leaves it untouched as well -- for every probe outcome and
fetch outcome, so no probe is consulted. -/
theorem C2_cooldown_skip (source : Source) (cfg : HealthConfig)
    (health : HMap) (now t : Int) (st : HealthStatus) (probeOk : Bool)
    (fetch : FetchOutcome) (collected_at : String) (current_date : Int)
    (hfound : hLookup health source.url = some st)
    (hdis : st.disabled = true) (htime : st.last_disabled_time = some t)
    (hwin : now - t < cfg.check_interval) :
    process_rss_source source true cfg health now probeOk fetch collected_at
        current_date = ⟨[], none, some st, health⟩ ∧
    runSourceAndAggregate source true cfg health now probeOk fetch
        collected_at current_date = health := by
  have hguard : skipGuard cfg now st = true := by
    rw [skipGuard, hdis, htime]
    simp [hwin]
  have h1 : process_rss_source source true cfg health now probeOk fetch
      collected_at current_date = ⟨[], none, some st, health⟩ := by
    simp only [process_rss_source, hfound, Option.getD_some, hguard, if_true]
  refine ⟨h1, ?_⟩
  rw [runSourceAndAggregate, h1]
  rfl

/-- Evaluation witness for C2: a source disabled at time 95 probed again at
time 100 with a 24-unit cool-down. -/
theorem C2_witness :
    process_rss_source demoSource true demoCfg
        [(demoSource.url, demoDisabled)] 100 true (FetchOutcome.entries [])
        "c" 0
      = ⟨[], none, some demoDisabled, [(demoSource.url, demoDisabled)]⟩ ∧
    runSourceAndAggregate demoSource true demoCfg
        [(demoSource.url, demoDisabled)] 100 true (FetchOutcome.entries [])
        "c" 0
      = [(demoSource.url, demoDisabled)] :=
  C2_cooldown_skip demoSource demoCfg [(demoSource.url, demoDisabled)]
    100 95 demoDisabled true (FetchOutcome.entries []) "c" 0 (by decide) rfl
    rfl (by decide)

/-! ## Health-map lemmas (C8) -/

theorem hLookup_hInsert_self (m : HMap) (k : String) (v : HealthStatus) :
    hLookup (hInsert m k v) k = some v := by
  induction m with
  | nil => simp [hInsert, hLookup]
  | cons p rest ih =>
    by_cases h : p.1 = k
    · simp [hInsert, h, hLookup]
    · simp [hInsert, h, hLookup, ih]

theorem restOfProcess_writeback (source : Source) (st : HealthStatus)
    (m : HMap) (fetch : FetchOutcome) (now : Int) (collected_at : String)
    (current_date : Int) (hurl : source.url ≠ "")
    (hm : hLookup m source.url = some st) :
    hLookup
      (aggregateOne true
        (restOfProcess source (some st) m true fetch now collected_at
            current_date).health
        (restOfProcess source (some st) m true fetch now collected_at
            current_date))
      source.url
    = (restOfProcess source (some st) m true fetch now collected_at
        current_date).status := by
  cases fetch with
  | entries es =>
    simp only [restOfProcess]
    by_cases hguard : source.url = "" ∨ source.enabled = false
    · rw [if_pos hguard]
      simpa [aggregateOne] using hm
    · rw [if_neg hguard]
      by_cases hempty : (processEntries source.name source.category
          collected_at current_date es).isEmpty = true
      · rw [if_pos hempty]
        simp only [aggregateOne]
        rw [if_neg hurl]
        exact hLookup_hInsert_self m source.url st
      · rw [if_neg hempty]
        simpa [aggregateOne] using hm
  | parseFatal err =>
    simp only [restOfProcess]
    by_cases hguard : source.url = "" ∨ source.enabled = false
    · rw [if_pos hguard]
      simpa [aggregateOne] using hm
    · rw [if_neg hguard]
      simp only [if_true, aggregateOne, bumpFailures]
      rw [if_neg hurl]
      exact hLookup_hInsert_self _ _ _
  | fetchError msg =>
    simp only [restOfProcess]
    by_cases hguard : source.url = "" ∨ source.enabled = false
    · rw [if_pos hguard]
      simpa [aggregateOne] using hm
    · rw [if_neg hguard]
      simp only [Option.isSome_some, Bool.and_true, Bool.true_and, if_true,
        aggregateOne, bumpFailures]
      rw [if_neg hurl]
      exact hLookup_hInsert_self _ _ _

theorem afterProbe_writeback (source : Source) (health2 : HMap) (now : Int)
    (st2 : HealthStatus) (fetch : FetchOutcome) (collected_at : String)
    (current_date : Int) (hurl : source.url ≠ "") :
    hLookup
      (aggregateOne true
        (afterProbe source health2 now st2 fetch collected_at
            current_date).health
        (afterProbe source health2 now st2 fetch collected_at current_date))
      source.url
    = (afterProbe source health2 now st2 fetch collected_at
        current_date).status := by
  simp only [afterProbe]
  by_cases hdis : st2.disabled = true
  · rw [if_pos hdis]
    simp only [aggregateOne]
    exact hLookup_hInsert_self _ _ _
  · rw [if_neg hdis]
    exact restOfProcess_writeback source st2 _ fetch now collected_at
      current_date hurl (hLookup_hInsert_self _ _ _)

/-! ## Claim C8 -/

/-- C8 (amended: non-empty URL): with health checking on, for every probed
source (not skipped inside its cool-down) whose URL is non-empty, after the
aggregation step the shared map's entry for the source URL is exactly the
status record that processing produced -- whether the probe succeeded,
failed below threshold, or auto-disabled, and whatever the fetch did. -/
theorem C8_writeback_nonempty_url (source : Source) (cfg : HealthConfig)
    (health : HMap) (now : Int) (probeOk : Bool) (fetch : FetchOutcome)
    (collected_at : String) (current_date : Int) (hurl : source.url ≠ "")
    (hskip : skipGuard cfg now
      ((hLookup health source.url).getD defaultStatus) = false) :
    hLookup
      (runSourceAndAggregate source true cfg health now probeOk fetch
        collected_at current_date)
      source.url
    = (process_rss_source source true cfg health now probeOk fetch
        collected_at current_date).status := by
  rw [runSourceAndAggregate]
  simp only [process_rss_source, hskip, Bool.false_eq_true, if_false,
    if_true]
  cases probeOk with
  | true =>
    simp only [if_true]
    exact afterProbe_writeback source _ now _ fetch collected_at
      current_date hurl
  | false =>
    simp only [Bool.false_eq_true, if_false]
    by_cases hth : cfg.failure_threshold ≤
        (cooldownReset ((hLookup health source.url).getD
          defaultStatus)).failures + 1 ∧ cfg.auto_disable = true
    · rw [if_pos hth]
      simp only [aggregateOne]
      rw [if_neg hurl]
      exact hLookup_hInsert_self _ _ _
    · rw [if_neg hth]
      exact afterProbe_writeback source _ now _ fetch collected_at
        current_date hurl

/-- Evaluation witness for the amended C8: a fresh source probed at time
100, probe failing below threshold, fetch then erroring out. -/
theorem C8_witness :
    hLookup
      (runSourceAndAggregate demoSource true ⟨3, 24, true⟩ [] 100 false
        (FetchOutcome.fetchError "boom") "c" 0)
      demoSource.url
    = (process_rss_source demoSource true ⟨3, 24, true⟩ [] 100 false
        (FetchOutcome.fetchError "boom") "c" 0).status :=
  C8_writeback_nonempty_url demoSource ⟨3, 24, true⟩ [] 100 false
    (FetchOutcome.fetchError "boom") "c" 0 (by decide) (by decide)

/-- Counterexample to C8 as stated: a source configured with an empty URL,
not yet present in the map, is probed (health checking on), fails once and
auto-disables -- the returned status is the disabled record, yet after the
aggregation step the shared map still has no entry for the URL, because
`process_rss_source` returned before line 114 and the aggregation guard
`if url:` treats the empty string as falsy. -/
theorem C8_counterexample :
    skipGuard demoCfg 0
        ((hLookup ([] : HMap) emptyUrlSource.url).getD defaultStatus)
      = false ∧
    (process_rss_source emptyUrlSource true demoCfg [] 0 false
        (FetchOutcome.entries []) "c" 0).status
      = some { failures := 1, last_check := some 0, disabled := true,
               last_disabled_time := some 0 } ∧
    hLookup
      (runSourceAndAggregate emptyUrlSource true demoCfg [] 0 false
        (FetchOutcome.entries []) "c" 0)
      emptyUrlSource.url
    = none :=
  ⟨rfl, rfl, rfl⟩

end Theorems

end NewsRss



